import Mathlib

/-!
Verification development for the HebloMCP authentication and OAuth-proxy
subsystem.  The Lean definitions below are a shallow embedding of the
Python source files `oauth_session.py`, `oauth_endpoints.py`,
`token_validator.py`, `sse_auth.py`, `sse_bearer_auth.py`, `auth.py` and
`user_context.py`.  Machine integers and timestamps are modelled as `Nat`
and `Int` (Python floats appear only as clock readings that are subtracted
and compared, which is exact arithmetic here); Python `Optional` values
become `Option`; Python dictionaries become association lists; network
calls and other external effects become explicit parameters.
-/

namespace HebloMCP

/-! ### SHA-256 (model of Python `hashlib.sha256`)

`hashlib.sha256` is the standard FIPS 180-4 SHA-256 function; it is
embedded here over byte lists (`List Nat`, every entry < 256), with 32-bit
words as `Nat` reduced mod `2 ^ 32`. -/

/-- 2 ^ 32, the 32-bit word modulus. -/
def M32 : Nat := 4294967296

/-- Right rotation of a 32-bit word. -/
def rotr (n x : Nat) : Nat := ((x >>> n) ||| (x <<< (32 - n))) % M32

/-- SHA-256 round constants (in decimal). -/
def sha256K : List Nat :=
  [1116352408, 1899447441, 3049323471, 3921009573, 961987163,
   1508970993, 2453635748, 2870763221, 3624381080, 310598401,
   607225278, 1426881987, 1925078388, 2162078206, 2614888103,
   3248222580, 3835390401, 4022224774, 264347078, 604807628,
   770255983, 1249150122, 1555081692, 1996064986, 2554220882,
   2821834349, 2952996808, 3210313671, 3336571891, 3584528711,
   113926993, 338241895, 666307205, 773529912, 1294757372,
   1396182291, 1695183700, 1986661051, 2177026350, 2456956037,
   2730485921, 2820302411, 3259730800, 3345764771, 3516065817,
   3600352804, 4094571909, 275423344, 430227734, 506948616,
   659060556, 883997877, 958139571, 1322822218, 1537002063,
   1747873779, 1955562222, 2024104815, 2227730452, 2361852424,
   2428436474, 2756734187, 3204031479, 3329325298]

/-- SHA-256 initial hash value (in decimal). -/
def sha256H0 : List Nat :=
  [1779033703, 3144134277, 1013904242, 2773480762,
   1359893119, 2600822924, 528734635, 1541459225]

/-- Big-endian byte serialization of `x` into `n` bytes. -/
def beBytes (n x : Nat) : List Nat :=
  (List.range n).map fun i => (x >>> (8 * (n - 1 - i))) % 256

/-- FIPS 180-4 message padding: append `0x80`, zeros to 56 mod 64, and the
bit length as 8 big-endian bytes. -/
def sha256Pad (msg : List Nat) : List Nat :=
  msg ++ 0x80 :: List.replicate ((119 - msg.length % 64) % 64) 0
      ++ beBytes 8 (msg.length * 8)

/-- Split a byte list into 64-byte blocks (fuel recursion so the kernel can
evaluate it; the fuel `l.length` always suffices since each step consumes
64 bytes). -/
def chunk64Aux : Nat → List Nat → List (List Nat)
  | _, [] => []
  | 0, _ => []
  | fuel + 1, b :: bs =>
      ((b :: bs).take 64) :: chunk64Aux fuel ((b :: bs).drop 64)

/-- Split a byte list into 64-byte blocks. -/
def chunk64 (l : List Nat) : List (List Nat) := chunk64Aux l.length l

/-- Group bytes into big-endian 32-bit words. -/
def toWords : List Nat → List Nat
  | b0 :: b1 :: b2 :: b3 :: rest =>
      (((b0 * 256 + b1) * 256 + b2) * 256 + b3) :: toWords rest
  | _ => []

/-- Small sigma0 in the message schedule. -/
def ssig0 (x : Nat) : Nat := (rotr 7 x) ^^^ (rotr 18 x) ^^^ (x >>> 3)

/-- Small sigma1 in the message schedule. -/
def ssig1 (x : Nat) : Nat := (rotr 17 x) ^^^ (rotr 19 x) ^^^ (x >>> 10)

/-- Extend the 16 block words into the 64-word message schedule. -/
def schedule (w16 : List Nat) : List Nat :=
  (List.range 48).foldl
    (fun w i =>
      w ++ [(ssig1 (w.getD (i + 14) 0) + w.getD (i + 9) 0 +
             ssig0 (w.getD (i + 1) 0) + w.getD i 0) % M32])
    w16

/-- Working state of the SHA-256 compression loop. -/
structure Sha256St where
  a : Nat
  b : Nat
  c : Nat
  d : Nat
  e : Nat
  f : Nat
  g : Nat
  hh : Nat
deriving DecidableEq

/-- One round of the SHA-256 compression function. -/
def sha256Round (s : Sha256St) (kw : Nat × Nat) : Sha256St :=
  let S1 := (rotr 6 s.e) ^^^ (rotr 11 s.e) ^^^ (rotr 25 s.e)
  let ch := (s.e &&& s.f) ^^^ ((M32 - 1 - s.e) &&& s.g)
  let t1 := (s.hh + S1 + ch + kw.1 + kw.2) % M32
  let S0 := (rotr 2 s.a) ^^^ (rotr 13 s.a) ^^^ (rotr 22 s.a)
  let maj := (s.a &&& s.b) ^^^ (s.a &&& s.c) ^^^ (s.b &&& s.c)
  let t2 := (S0 + maj) % M32
  ⟨(t1 + t2) % M32, s.a, s.b, s.c, (s.d + t1) % M32, s.e, s.f, s.g⟩

/-- Compress one 64-byte block into the running hash value. -/
def sha256Block (hs : List Nat) (block : List Nat) : List Nat :=
  let ws := schedule (toWords block)
  let st0 : Sha256St :=
    ⟨hs.getD 0 0, hs.getD 1 0, hs.getD 2 0, hs.getD 3 0,
     hs.getD 4 0, hs.getD 5 0, hs.getD 6 0, hs.getD 7 0⟩
  let st := (sha256K.zip ws).foldl (fun s kw => sha256Round s kw) st0
  [(hs.getD 0 0 + st.a) % M32, (hs.getD 1 0 + st.b) % M32,
   (hs.getD 2 0 + st.c) % M32, (hs.getD 3 0 + st.d) % M32,
   (hs.getD 4 0 + st.e) % M32, (hs.getD 5 0 + st.f) % M32,
   (hs.getD 6 0 + st.g) % M32, (hs.getD 7 0 + st.hh) % M32]

/-- SHA-256 digest of a byte list, as 32 bytes. -/
def sha256 (msg : List Nat) : List Nat :=
  ((chunk64 (sha256Pad msg)).foldl sha256Block sha256H0).flatMap (beBytes 4)

/-! ### Base64url and UTF-8 (models of `base64.urlsafe_b64encode`,
`str.encode`, `str.rstrip`) -/

/-- The URL-safe base64 alphabet used by `base64.urlsafe_b64encode`. -/
def b64Alphabet : List Char :=
  "ABCDEFGHIJKLMNOPQRSTUVWXYZabcdefghijklmnopqrstuvwxyz0123456789-_".data

/-- Character for a 6-bit value. -/
def b64Char (n : Nat) : Char := b64Alphabet.getD n '='

/-- Base64 encoding of a byte list, with `=` padding, over the URL-safe
alphabet (model of `base64.urlsafe_b64encode`). -/
def b64urlEncode : List Nat → List Char
  | b0 :: b1 :: b2 :: rest =>
      b64Char (b0 >>> 2) :: b64Char ((b0 % 4) * 16 + (b1 >>> 4)) ::
      b64Char ((b1 % 16) * 4 + (b2 >>> 6)) :: b64Char (b2 % 64) ::
      b64urlEncode rest
  | [b0, b1] =>
      [b64Char (b0 >>> 2), b64Char ((b0 % 4) * 16 + (b1 >>> 4)),
       b64Char ((b1 % 16) * 4), '=']
  | [b0] =>
      [b64Char (b0 >>> 2), b64Char ((b0 % 4) * 16), '=', '=']
  | [] => []

/-- Model of Python `.rstrip("=")`: drop trailing `=` characters. -/
def rstripEq (cs : List Char) : List Char :=
  (cs.reverse.dropWhile (fun c => c = '=')).reverse

/-- UTF-8 encoding of one character (model of Python `str.encode`). -/
def utf8Char (c : Char) : List Nat :=
  let n := c.toNat
  if n < 0x80 then [n]
  else if n < 0x800 then [0xC0 + n / 64, 0x80 + n % 64]
  else if n < 0x10000 then
    [0xE0 + n / 4096, 0x80 + (n / 64) % 64, 0x80 + n % 64]
  else
    [0xF0 + n / 262144, 0x80 + (n / 4096) % 64, 0x80 + (n / 64) % 64,
     0x80 + n % 64]

/-- UTF-8 encoding of a string as a byte list. -/
def utf8Encode (s : String) : List Nat := s.data.flatMap utf8Char

/-- The PKCE challenge computed inside `OAuthSessionStore.exchange_code`:
`base64.urlsafe_b64encode(hashlib.sha256(code_verifier.encode()).digest())
.decode().rstrip("=")`. -/
def computeChallenge (verifier : String) : String :=
  String.mk (rstripEq (b64urlEncode (sha256 (utf8Encode verifier))))

/-! ### OAuth session store (model of `oauth_session.py`)

`time.time()` readings and TTLs are modelled as `Int`; the two Python
dictionaries become association lists whose keys are unique for every
store reachable through the store operations. -/

/-- `OAuthState` dataclass of `oauth_session.py`. -/
structure OAuthState where
  code_challenge : String
  code_challenge_method : String
  redirect_uri : String
  scope : String
  created_at : Int
deriving DecidableEq

/-- `ProxyCode` dataclass of `oauth_session.py`. -/
structure ProxyCode where
  access_token : String
  code_challenge : String
  created_at : Int
deriving DecidableEq

/-- State of an `OAuthSessionStore` (TTL configuration plus the two maps;
the lock is not modelled since every operation below is one atomic
lock-protected block in the source). -/
structure OAuthSessionStore where
  state_ttl : Int
  code_ttl : Int
  states : List (String × OAuthState)
  codes : List (String × ProxyCode)
deriving DecidableEq

/-- `OAuthSessionStore.__init__` with its default TTLs (600 s for states,
300 s for codes). -/
def mkStore (state_ttl : Int := 600) (code_ttl : Int := 300) :
    OAuthSessionStore :=
  ⟨state_ttl, code_ttl, [], []⟩

namespace OAuthSessionStore

/-- `_cleanup_expired_states`: drop every state whose age strictly exceeds
`state_ttl` at time `now`. -/
def cleanupExpiredStates (now : Int) (s : OAuthSessionStore) :
    OAuthSessionStore :=
  { s with states :=
      s.states.filter fun p => decide (now - p.2.created_at ≤ s.state_ttl) }

/-- `_cleanup_expired_codes`: drop every code whose age strictly exceeds
`code_ttl` at time `now`. -/
def cleanupExpiredCodes (now : Int) (s : OAuthSessionStore) :
    OAuthSessionStore :=
  { s with codes :=
      s.codes.filter fun p => decide (now - p.2.created_at ≤ s.code_ttl) }

/-- `store_state`: cleanup, then store an `OAuthState` keyed by `state`
(dictionary assignment replaces any previous entry for the key). -/
def storeState (s : OAuthSessionStore) (now : Int) (state code_challenge
    code_challenge_method redirect_uri scope : String) : OAuthSessionStore :=
  let s1 := cleanupExpiredStates now s
  { s1 with states :=
      (state, ⟨code_challenge, code_challenge_method, redirect_uri, scope,
               now⟩) :: s1.states.filter fun p => p.1 ≠ state }

/-- `get_state`: cleanup, then `dict.pop(state, None)` — look up and remove
in one atomic step, returning the entry if it was present. -/
def getState (s : OAuthSessionStore) (now : Int) (state : String) :
    Option OAuthState × OAuthSessionStore :=
  let s1 := cleanupExpiredStates now s
  (s1.states.lookup state,
   { s1 with states := s1.states.filter fun p => p.1 ≠ state })

/-- `create_proxy_code`: cleanup, then store a `ProxyCode` under the
freshly generated code (`secrets.token_urlsafe(32)` is modelled by the
explicit `proxyCode` argument). -/
def createProxyCode (s : OAuthSessionStore) (now : Int)
    (proxyCode access_token code_challenge : String) : OAuthSessionStore :=
  let s1 := cleanupExpiredCodes now s
  { s1 with codes :=
      (proxyCode, ⟨access_token, code_challenge, now⟩) ::
        s1.codes.filter fun p => p.1 ≠ proxyCode }

/-- `exchange_code`: cleanup, pop the code (removing it whether or not the
PKCE check below succeeds), then compare the challenge recomputed from
`code_verifier` with the stored one. -/
def exchangeCode (s : OAuthSessionStore) (now : Int)
    (code code_verifier : String) : Option String × OAuthSessionStore :=
  let s1 := cleanupExpiredCodes now s
  match s1.codes.lookup code with
  | none => (none, { s1 with codes := s1.codes.filter fun p => p.1 ≠ code })
  | some pc =>
      let s2 := { s1 with codes := s1.codes.filter fun p => p.1 ≠ code }
      if computeChallenge code_verifier = pc.code_challenge then
        (some pc.access_token, s2)
      else
        (none, s2)

end OAuthSessionStore

/-! ### OAuth proxy endpoints (model of `oauth_endpoints.py`)

HTTP requests become records of the query/form parameters the handlers
read (`request.query_params.get` / `form.get` give `Option String`);
responses become an explicit inductive.  The network call of
`_exchange_code_for_token` (and its missing-client-secret failure) is an
explicit `Except` parameter, and `request.url_for("oauth_callback")` is an
explicit `callbackUrl` argument. -/

/-- Configuration fields of `HebloMCPConfig` consumed by the endpoints. -/
structure HebloMCPConfig where
  tenant_id : String
  client_id : String
  api_scope : String
deriving DecidableEq

/-- An HTTP response produced by one of the three OAuth endpoints:
a JSON error body, a 302 redirect, or the `/token` success body. -/
inductive OAuthHttpResponse where
  | jsonError (status : Nat) (error : String) (error_description : String)
  | redirect (status : Nat) (url : String)
  | tokenSuccess (status : Nat) (access_token token_type : String)
      (expires_in : Nat)
deriving DecidableEq

/-- Python truthiness of an optional string (`None` and `""` are falsy),
as used by `if not all([...])` / `if error:` in the endpoints. -/
def truthy : Option String → Bool
  | none => false
  | some s => !s.isEmpty

/-- Hex digit characters used by percent-encoding. -/
def hexDigits : List Char := "0123456789ABCDEF".data

/-- Percent-encode one byte as `%XX`. -/
def pctByte (b : Nat) : List Char :=
  ['%', hexDigits.getD (b / 16) '0', hexDigits.getD (b % 16) '0']

/-- `urllib.parse.quote_plus` on one character: alphanumerics and
`_ . - ~` kept, space becomes `+`, everything else percent-encoded per
UTF-8 byte. -/
def quotePlusChar (c : Char) : List Char :=
  if c.isAlphanum || c = '_' || c = '.' || c = '-' || c = '~' then [c]
  else if c = ' ' then ['+']
  else (utf8Char c).flatMap pctByte

/-- `urllib.parse.quote_plus` on a string. -/
def quotePlus (s : String) : String := String.mk (s.data.flatMap quotePlusChar)

/-- `urllib.parse.urlencode` over an ordered parameter list. -/
def urlencode (ps : List (String × String)) : String :=
  String.intercalate "&" (ps.map fun p => quotePlus p.1 ++ "=" ++ quotePlus p.2)

/-- The Azure AD authorization URL built in `OAuthEndpoints.__init__`. -/
def azureAuthorizeUrl (tenant_id : String) : String :=
  "https://login.microsoftonline.com/" ++ tenant_id ++ "/oauth2/v2.0/authorize"

namespace OAuthEndpoints

/-- Query parameters read by `OAuthEndpoints.authorize`. -/
structure AuthorizeQuery where
  client_id : Option String
  redirect_uri : Option String
  state : Option String
  code_challenge : Option String
  code_challenge_method : Option String
  scope : Option String
deriving DecidableEq

/-- `OAuthEndpoints.authorize`: validate the five required parameters and
the client id, store the OAuth state, and redirect (302) to Azure AD with
the proxy's own callback URL and configured API scope. -/
def authorize (cfg : HebloMCPConfig) (callbackUrl : String) (now : Int)
    (s : OAuthSessionStore) (q : AuthorizeQuery) :
    OAuthHttpResponse × OAuthSessionStore :=
  let scope := q.scope.getD "claudeai"
  if ¬ (truthy q.client_id ∧ truthy q.redirect_uri ∧ truthy q.state ∧
        truthy q.code_challenge ∧ truthy q.code_challenge_method) then
    (.jsonError 400 "invalid_request" "Missing required OAuth parameters", s)
  else if q.client_id ≠ some cfg.client_id then
    (.jsonError 400 "invalid_client"
       ("Unknown client_id. Expected: " ++ cfg.client_id), s)
  else
    let st := (q.state).getD ""
    let s1 := s.storeState now st (q.code_challenge.getD "")
      (q.code_challenge_method.getD "") (q.redirect_uri.getD "") scope
    let authUrl := azureAuthorizeUrl cfg.tenant_id ++ "?" ++
      urlencode [("client_id", cfg.client_id), ("response_type", "code"),
                 ("redirect_uri", callbackUrl), ("scope", cfg.api_scope),
                 ("state", st), ("response_mode", "query")]
    (.redirect 302 authUrl, s1)

/-- Query parameters read by `OAuthEndpoints.callback`. -/
structure CallbackQuery where
  code : Option String
  state : Option String
  error : Option String
  error_description : Option String
deriving DecidableEq

/-- `OAuthEndpoints.callback`: report provider errors, require `code` and
`state`, consume the stored state (read-and-remove), exchange the provider
code for a token (`exchangeResult` stands for the awaited
`_exchange_code_for_token` network call; `mintedCode` for
`secrets.token_urlsafe(32)`), mint a proxy code and redirect back to the
client. -/
def callback (now : Int) (s : OAuthSessionStore) (q : CallbackQuery)
    (exchangeResult : Except String String) (mintedCode : String) :
    OAuthHttpResponse × OAuthSessionStore :=
  if truthy q.error then
    (.jsonError 400 (q.error.getD "")
       (q.error_description.getD "Unknown error"), s)
  else if ¬ (truthy q.code ∧ truthy q.state) then
    (.jsonError 400 "invalid_request" "Missing code or state", s)
  else
    let st := q.state.getD ""
    match s.getState now st with
    | (none, s1) =>
        (.jsonError 400 "invalid_request" "Invalid or expired state parameter",
         s1)
    | (some oauthState, s1) =>
        match exchangeResult with
        | .error e =>
            (.jsonError 500 "server_error" ("Token exchange failed: " ++ e),
             s1)
        | .ok access_token =>
            let s2 := s1.createProxyCode now mintedCode access_token
              oauthState.code_challenge
            let callbackTarget := oauthState.redirect_uri ++ "?" ++
              urlencode [("code", mintedCode), ("state", st)]
            (.redirect 302 callbackTarget, s2)

/-- Form parameters read by `OAuthEndpoints.token`. -/
structure TokenRequest where
  grant_type : Option String
  code : Option String
  code_verifier : Option String
  client_id : Option String
deriving DecidableEq

/-- The `invalid_grant` response of `/token`, identical for an unknown code
and for a PKCE mismatch. -/
def invalidGrantResponse : OAuthHttpResponse :=
  .jsonError 400 "invalid_grant" "Invalid authorization code or code verifier"

/-- `OAuthEndpoints.token`: validate grant type, parameter presence and
client id, then exchange the proxy code (with PKCE verification) and
answer 200 with the stored access token or 400 `invalid_grant`
(`if not access_token:` also treats an empty stored token as a failure). -/
def token (cfg : HebloMCPConfig) (now : Int) (s : OAuthSessionStore)
    (r : TokenRequest) : OAuthHttpResponse × OAuthSessionStore :=
  if r.grant_type ≠ some "authorization_code" then
    (.jsonError 400 "unsupported_grant_type"
       "Only authorization_code grant type is supported", s)
  else if ¬ (truthy r.code ∧ truthy r.code_verifier ∧ truthy r.client_id) then
    (.jsonError 400 "invalid_request" "Missing required parameters", s)
  else if r.client_id ≠ some cfg.client_id then
    (.jsonError 400 "invalid_client" "Invalid client_id", s)
  else
    match s.exchangeCode now (r.code.getD "") (r.code_verifier.getD "") with
    | (some access_token, s1) =>
        if access_token.isEmpty then (invalidGrantResponse, s1)
        else (.tokenSuccess 200 access_token "Bearer" 3600, s1)
    | (none, s1) => (invalidGrantResponse, s1)

end OAuthEndpoints

/-! ### User context (model of `user_context.py`) -/

/-- `UserContext` dataclass. -/
structure UserContext where
  email : String
  tenant_id : String
  object_id : String
  token : String
deriving DecidableEq

/-- Python `repr` of a string: quoted with `'` (or with `"` when the string
contains `'` but no `"`), escaping the backslash and the quote character.
(Control-character escaping is irrelevant to the fields at issue and
elided.) -/
def pyStrRepr (s : String) : String :=
  let q : Char :=
    if s.data.contains '\'' ∧ ¬ s.data.contains '"' then '"' else '\''
  let esc : Char → List Char := fun c =>
    if c = '\\' ∨ c = q then ['\\', c] else [c]
  String.mk (q :: s.data.flatMap esc ++ [q])

/-- `UserContext.__repr__`: formats `email`, `tenant_id` and `object_id`
with `!r` and never reads `token`. -/
def UserContext.reprStr (u : UserContext) : String :=
  "UserContext(email=" ++ pyStrRepr u.email ++
  ", tenant_id=" ++ pyStrRepr u.tenant_id ++
  ", object_id=" ++ pyStrRepr u.object_id ++ ")"

/-! ### Token validator (model of `token_validator.py`)

The PyJWT library calls (`jwt.get_unverified_header`, key selection,
`jwt.decode`) are external; their combined outcome on a given token and
key set is modelled by the `JwtOutcome` inductive, one constructor per
`except` branch of `validate_token` plus success.  Every `raise` in the
source constructs the single class `TokenValidationError`, so a raised
error is modelled as a class name (always `"TokenValidationError"`)
together with its message. -/

/-- A raised Python exception: its class name and message. -/
structure RaisedError where
  className : String
  message : String
deriving DecidableEq

/-- Claims of a successfully decoded JWT payload that `validate_token`
reads (each via `payload.get`, hence optional). -/
structure JwtPayload where
  preferred_username : Option String
  email : Option String
  oid : Option String
  tid : Option String
deriving DecidableEq

/-- Outcome of the PyJWT calls inside `validate_token`, one case per
`except` branch of the source. -/
inductive JwtOutcome where
  | ok (payload : JwtPayload)
  | noMatchingKey
  | expiredSignature
  | invalidAudience
  | invalidIssuer
  | invalidSignature
  | decodeError
  | otherError (msg : String)
deriving DecidableEq

/-- `payload.get(k, default)` chain used for the email claim:
`payload.get("preferred_username", payload.get("email", ""))`. -/
def emailClaim (p : JwtPayload) : String :=
  (p.preferred_username.getD (p.email.getD ""))

/-- `TokenValidator.validate_token`: map the PyJWT outcome either to a
`UserContext` carrying the raw token, or to the raised
`TokenValidationError` with the message of the matching `except` branch
(the `noMatchingKey` raise inside the `try` block is re-wrapped by the
catch-all branch). -/
def validateToken (outcome : JwtOutcome) (token : String) :
    Except RaisedError UserContext :=
  match outcome with
  | .ok p =>
      .ok ⟨emailClaim p, p.tid.getD "", p.oid.getD "", token⟩
  | .noMatchingKey =>
      .error ⟨"TokenValidationError",
        "Token validation failed: Unable to find matching signing key in JWKS"⟩
  | .expiredSignature =>
      .error ⟨"TokenValidationError",
        "Token expired. Please refresh your authentication."⟩
  | .invalidAudience =>
      .error ⟨"TokenValidationError",
        "Token not valid for this service. Invalid audience."⟩
  | .invalidIssuer =>
      .error ⟨"TokenValidationError",
        "Token not valid for this service. Invalid issuer."⟩
  | .invalidSignature =>
      .error ⟨"TokenValidationError", "Invalid token signature."⟩
  | .decodeError =>
      .error ⟨"TokenValidationError",
        "Invalid token format. Expected JWT Bearer token."⟩
  | .otherError msg =>
      .error ⟨"TokenValidationError", "Token validation failed: " ++ msg⟩

/-- Class name of the error of a validation result (empty on success). -/
def errClass : Except RaisedError UserContext → String
  | .error e => e.className
  | .ok _ => ""

/-- Message of the error of a validation result (empty on success). -/
def errMessage : Except RaisedError UserContext → String
  | .error e => e.message
  | .ok _ => ""

/-! #### JWKS cache (`_get_jwks` / `_fetch_jwks`)

The JWKS document is a parsed JSON object, modelled as an association
list with opaque serialized values; Python dict truthiness
(`if self._jwks_cache:`) is emptiness of that list.  The
`httpx` GET is an explicit `Except` parameter. -/

/-- A parsed JWKS JSON document (keys to opaque serialized values). -/
def Jwks : Type := List (String × String)

instance : DecidableEq Jwks := by unfold Jwks; infer_instance

/-- Python truthiness of the cached JWKS dictionary. -/
def jwksTruthy : Option Jwks → Bool
  | none => false
  | some d => !d.isEmpty

/-- The JWKS cache fields of a `TokenValidator`
(`_jwks_cache`, `_jwks_cache_time`, `jwks_cache_ttl`). -/
structure JwksCache where
  jwks_cache_ttl : Int
  jwks_cache : Option Jwks
  jwks_cache_time : Int
deriving DecidableEq

/-- `TokenValidator._fetch_jwks`: on fetch success return the document; on
any fetch failure serve the cached document if it is truthy, else raise
`TokenValidationError("Unable to fetch JWKS: ...")`. -/
def fetchJwks (st : JwksCache) (fetchResult : Except String Jwks) :
    Except RaisedError Jwks :=
  match fetchResult with
  | .ok j => .ok j
  | .error e =>
      if jwksTruthy st.jwks_cache then .ok (st.jwks_cache.getD [])
      else .error ⟨"TokenValidationError", "Unable to fetch JWKS: " ++ e⟩

/-- `TokenValidator._get_jwks`: serve the cache when it is truthy and
within TTL, else fetch (via `fetchJwks`) and overwrite cache and
timestamp with whatever was obtained. -/
def getJwks (st : JwksCache) (now : Int) (fetchResult : Except String Jwks) :
    Except RaisedError (Jwks × JwksCache) :=
  if jwksTruthy st.jwks_cache ∧ now - st.jwks_cache_time < st.jwks_cache_ttl
  then .ok (st.jwks_cache.getD [], st)
  else
    match fetchJwks st fetchResult with
    | .error e => .error e
    | .ok j => .ok (j, { st with jwks_cache := some j, jwks_cache_time := now })

/-! ### Inbound auth middleware (model of `sse_auth.py`)

The ASGI scope is reduced to the path and header list the middleware
reads; forwarding to the wrapped app (with an optionally attached user)
and the `_send_401` JSON response become the `MwOutcome` inductive. -/

/-- Outcome of `SSEAuthMiddleware.__call__` on an HTTP request: forward to
the wrapped app (with the user attached to the scope when one was
validated), or respond through `_send_401` with status 401 and an error
message body. -/
inductive MwOutcome where
  | forwarded (user : Option UserContext)
  | respond (status : Nat) (errorMessage : String)
deriving DecidableEq

/-- ASCII lowercasing of a header name (model of `bytes.lower()`). -/
def asciiLower (s : String) : String := String.mk (s.data.map Char.toLower)

/-- `_extract_bearer_token`: first `authorization` header (case-insensitive
name) whose value starts with `"Bearer "`, with that 7-character prefix
removed; the loop keeps scanning past non-`Bearer` authorization
headers. -/
def extractBearerToken : List (String × String) → Option String
  | [] => none
  | (name, value) :: rest =>
      if asciiLower name = "authorization" ∧
         List.isPrefixOf "Bearer ".data value.data then
        some (String.mk (value.data.drop 7))
      else extractBearerToken rest

/-- `SSEAuthMiddleware.__call__` on an HTTP request: bypass `/` (when
configured) and the three OAuth paths; 401 without a bearer token;
validate the token (`validate` abstracts `validate_token` with its
external JWT outcome fixed) and either forward with the user attached or
401 with the error message. -/
def sseAuthMiddleware (bypass_health : Bool) (path : String)
    (headers : List (String × String))
    (validate : String → Except RaisedError UserContext) : MwOutcome :=
  if bypass_health ∧ path = "/" then .forwarded none
  else if path = "/authorize" ∨ path = "/callback" ∨ path = "/token" then
    .forwarded none
  else
    match extractBearerToken headers with
    | none =>
        .respond 401 "Authentication required. Please provide Bearer token."
    | some token =>
        match validate token with
        | .ok u => .forwarded (some u)
        | .error e => .respond 401 e.message

/-! ### Outbound request authenticators (models of
`MSALBearerAuth.auth_flow` and `SSEBearerAuth.auth_flow`)

An httpx `auth_flow` generator yields requests and receives responses; it
is modelled as a function from the response oracle (`respond i` is the
response to the `i`-th yielded request) to the list of yielded requests
and the response the client ends up with (the response to the last
yielded request). -/

/-- An outbound HTTP request, reduced to its header map. -/
structure HttpRequest where
  headers : List (String × String)
deriving DecidableEq

/-- An HTTP response, reduced to its status code. -/
structure HttpResponse where
  status : Nat
deriving DecidableEq

/-- Header assignment `request.headers[name] = value`. -/
def setHeader (r : HttpRequest) (name value : String) : HttpRequest :=
  ⟨(name, value) :: r.headers.filter fun p => p.1 ≠ name⟩

/-- `MSALBearerAuth.auth_flow`: inject `Bearer` + `get_token()` (the `i`-th
`get_token()` result is `getToken i`), send; on a 401 re-inject a fresh
token and resend exactly once, ending with the second response; otherwise
end with the first response. -/
def msalAuthFlow (getToken : Nat → String) (req : HttpRequest)
    (respond : Nat → HttpResponse) : List HttpRequest × HttpResponse :=
  let r1 := setHeader req "Authorization" ("Bearer " ++ getToken 0)
  let resp1 := respond 0
  if resp1.status = 401 then
    let r2 := setHeader r1 "Authorization" ("Bearer " ++ getToken 1)
    ([r1, r2], respond 1)
  else ([r1], resp1)

/-- `SSEBearerAuth.auth_flow`: inject the per-request user context token
when one is attached, send once, and end with that single response
(no retry of any kind). -/
def sseAuthFlow (userCtx : Option UserContext) (req : HttpRequest)
    (respond : Nat → HttpResponse) : List HttpRequest × HttpResponse :=
  let r1 := match userCtx with
    | some u => setHeader req "Authorization" ("Bearer " ++ u.token)
    | none => req
  ([r1], respond 0)

/-! ### Helper lemmas about association-list lookup and filtering -/

lemma lookup_eq_none_of_not_mem_keys {α : Type} (k : String) :
    ∀ l : List (String × α), k ∉ l.map Prod.fst → l.lookup k = none := by
  intro l
  induction l with
  | nil => intro _; rfl
  | cons hd tl ih =>
      intro h
      obtain ⟨k2, v2⟩ := hd
      simp only [List.map_cons, List.mem_cons] at h
      push_neg at h
      have hne : (k == k2) = false := beq_eq_false_iff_ne.mpr h.1
      simp [List.lookup, hne, ih h.2]

lemma lookup_filter_none {α : Type} (p : String × α → Bool) (k : String) :
    ∀ l : List (String × α), l.lookup k = none → (l.filter p).lookup k = none := by
  intro l
  induction l with
  | nil => intro _; rfl
  | cons hd tl ih =>
      intro h
      obtain ⟨k2, v2⟩ := hd
      by_cases hk : k = k2
      · subst hk; simp [List.lookup] at h
      · have hne : (k == k2) = false := beq_eq_false_iff_ne.mpr hk
        simp only [List.lookup, hne] at h
        cases hp : p (k2, v2) <;>
          simp [List.filter_cons, hp, List.lookup, hne, ih h]

lemma lookup_filter_keep {α : Type} (p : String × α → Bool) (k : String)
    (v : α) :
    ∀ l : List (String × α), l.lookup k = some v → p (k, v) = true →
      (l.filter p).lookup k = some v := by
  intro l
  induction l with
  | nil => intro h _; simp [List.lookup] at h
  | cons hd tl ih =>
      intro h hpv
      obtain ⟨k2, v2⟩ := hd
      by_cases hk : k = k2
      · subst hk
        have hv : v2 = v := by simpa [List.lookup] using h
        subst hv
        simp [List.filter_cons, hpv, List.lookup]
      · have hne : (k == k2) = false := beq_eq_false_iff_ne.mpr hk
        simp only [List.lookup, hne] at h
        cases hp : p (k2, v2) <;>
          simp [List.filter_cons, hp, List.lookup, hne, ih h hpv]

lemma lookup_filter_removed {α : Type} (p : String × α → Bool) (k : String)
    (v : α) :
    ∀ l : List (String × α), (l.map Prod.fst).Nodup →
      l.lookup k = some v → p (k, v) = false →
      (l.filter p).lookup k = none := by
  intro l
  induction l with
  | nil => intro _ h _; simp [List.lookup] at h
  | cons hd tl ih =>
      intro hnd h hpv
      obtain ⟨k2, v2⟩ := hd
      simp only [List.map_cons, List.nodup_cons] at hnd
      by_cases hk : k = k2
      · subst hk
        have hv : v2 = v := by simpa [List.lookup] using h
        subst hv
        rw [List.filter_cons]
        simp only [hpv, Bool.false_eq_true, if_false]
        exact lookup_filter_none p k tl
          (lookup_eq_none_of_not_mem_keys k tl hnd.1)
      · have hne : (k == k2) = false := beq_eq_false_iff_ne.mpr hk
        simp only [List.lookup, hne] at h
        cases hp : p (k2, v2) <;>
          simp [List.filter_cons, hp, List.lookup, hne, ih hnd.2 h hpv]

lemma lookup_filter_pred_false {α : Type} (p : String × α → Bool)
    (k : String) (hp : ∀ v, p (k, v) = false) :
    ∀ l : List (String × α), (l.filter p).lookup k = none := by
  intro l
  induction l with
  | nil => rfl
  | cons hd tl ih =>
      obtain ⟨k2, v2⟩ := hd
      by_cases hk : k = k2
      · subst hk
        simp [List.filter_cons, hp v2, ih]
      · have hne : (k == k2) = false := beq_eq_false_iff_ne.mpr hk
        cases hpv : p (k2, v2) <;>
          simp [List.filter_cons, hpv, List.lookup, hne, ih]

lemma isEmpty_false_of_ne (s : String) (h : s ≠ "") : s.isEmpty = false := by
  cases he : s.isEmpty
  · rfl
  · exact absurd ((String.isEmpty_iff s).mp he) h

/-! ### Claim theorems -/

/-- C6: the default TTLs are 600 s (states) and 300 s (codes); an
`OAuthState` whose age strictly exceeds the store's state TTL behaves as
absent on any subsequent `get_state` lookup, and a `ProxyCode` whose age
strictly exceeds the code TTL behaves as absent on any subsequent
`exchange_code` attempt. -/
theorem c6_ttl_expiry :
    (mkStore).state_ttl = 600 ∧ (mkStore).code_ttl = 300 ∧
    (∀ (s : OAuthSessionStore) (now : Int) (k : String) (st : OAuthState),
      (s.states.map Prod.fst).Nodup →
      s.states.lookup k = some st →
      s.state_ttl < now - st.created_at →
      (s.getState now k).1 = none) ∧
    (∀ (s : OAuthSessionStore) (now : Int) (c v : String) (pc : ProxyCode),
      (s.codes.map Prod.fst).Nodup →
      s.codes.lookup c = some pc →
      s.code_ttl < now - pc.created_at →
      (s.exchangeCode now c v).1 = none) := by
  refine ⟨rfl, rfl, ?_, ?_⟩
  · intro s now k st hnd hlk hexp
    have hfalse : (fun p : String × OAuthState =>
        decide (now - p.2.created_at ≤ s.state_ttl)) (k, st) = false := by
      simp only [decide_eq_false_iff_not]
      omega
    have hnone : (s.states.filter fun p =>
        decide (now - p.2.created_at ≤ s.state_ttl)).lookup k = none :=
      lookup_filter_removed _ k st s.states hnd hlk hfalse
    unfold OAuthSessionStore.getState OAuthSessionStore.cleanupExpiredStates
    exact hnone
  · intro s now c v pc hnd hlk hexp
    have hfalse : (fun p : String × ProxyCode =>
        decide (now - p.2.created_at ≤ s.code_ttl)) (c, pc) = false := by
      simp only [decide_eq_false_iff_not]
      omega
    have hnone : (s.codes.filter fun p =>
        decide (now - p.2.created_at ≤ s.code_ttl)).lookup c = none :=
      lookup_filter_removed _ c pc s.codes hnd hlk hfalse
    unfold OAuthSessionStore.exchangeCode OAuthSessionStore.cleanupExpiredCodes
    dsimp only
    rw [hnone]

/-- Witness for C6 at a concrete store: a state stored at time 0 is absent
at time 601 with the default 600 s TTL, and a code stored at time 0 is
absent for exchange at time 301 with the default 300 s TTL. -/
theorem c6_ttl_expiry_witness :
    ((⟨600, 300, [("s1", ⟨"ch", "S256", "ru", "sc", 0⟩)],
       [("c1", ⟨"tok", "ch", 0⟩)]⟩ : OAuthSessionStore).getState 601 "s1").1
      = none ∧
    ((⟨600, 300, [("s1", ⟨"ch", "S256", "ru", "sc", 0⟩)],
       [("c1", ⟨"tok", "ch", 0⟩)]⟩ : OAuthSessionStore).exchangeCode 301
        "c1" "v").1 = none := by
  constructor
  · exact c6_ttl_expiry.2.2.1 _ 601 "s1" ⟨"ch", "S256", "ru", "sc", 0⟩
      (by decide) (by decide) (by decide)
  · exact c6_ttl_expiry.2.2.2 _ 301 "c1" "v" ⟨"tok", "ch", 0⟩
      (by decide) (by decide) (by decide)

/-- C7: a `/callback` request that successfully looks up its `state` also
removes it (whether the upstream token exchange then succeeds or fails),
so a second `/callback` call carrying the same `state` value answers
400 `invalid_request`. -/
theorem c7_state_single_use
    (now now2 : Int) (s : OAuthSessionStore)
    (q q2 : OAuthEndpoints.CallbackQuery)
    (ex ex2 : Except String String) (m m2 : String) (stv : String)
    (hqe : truthy q.error = false) (hqc : truthy q.code = true)
    (hqs : q.state = some stv) (hstv : stv ≠ "")
    (hfound : ((s.getState now stv).1).isSome = true)
    (hq2e : truthy q2.error = false) (hq2c : truthy q2.code = true)
    (hq2s : q2.state = some stv) :
    ((OAuthEndpoints.callback now s q ex m).2.states.lookup stv = none) ∧
    (OAuthEndpoints.callback now2
        (OAuthEndpoints.callback now s q ex m).2 q2 ex2 m2).1 =
      .jsonError 400 "invalid_request" "Invalid or expired state parameter" := by
  have hstvE : truthy (some stv) = true := by
    simp [truthy, isEmpty_false_of_ne stv hstv]
  have hpop : ∀ s3 : OAuthSessionStore, (s3.getState now stv).2.states.lookup stv = none := by
    intro s3
    apply lookup_filter_pred_false
    intro v
    simp
  -- the first callback reaches the state lookup and removes the entry
  have h1 : (OAuthEndpoints.callback now s q ex m).2.states.lookup stv = none := by
    unfold OAuthEndpoints.callback
    rw [hqs]
    simp only [hqe, hqc, hstvE, Bool.false_eq_true, if_false, and_self,
      not_true_eq_false, Option.getD_some]
    cases hg : s.getState now stv with
    | mk opt s1 =>
        have hs1 : s1.states.lookup stv = none := by
          have := hpop s
          rw [hg] at this
          exact this
        cases opt with
        | none => simpa using hs1
        | some oas =>
            cases ex with
            | error e => simpa using hs1
            | ok tok =>
                simp only []
                simpa [OAuthSessionStore.createProxyCode,
                  OAuthSessionStore.cleanupExpiredCodes] using hs1
  refine ⟨h1, ?_⟩
  -- the second callback fails the lookup and answers invalid_request
  generalize hs1 : (OAuthEndpoints.callback now s q ex m).2 = s1 at h1 ⊢
  unfold OAuthEndpoints.callback
  rw [hq2s]
  simp only [hq2e, hq2c, hstvE, Bool.false_eq_true, if_false, and_self,
    not_true_eq_false, Option.getD_some]
  have hlk2 : (s1.getState now2 stv).1 = none := by
    unfold OAuthSessionStore.getState OAuthSessionStore.cleanupExpiredStates
    exact lookup_filter_none _ _ _ h1
  cases hg2 : s1.getState now2 stv with
  | mk opt2 s2 =>
      rw [hg2] at hlk2
      cases opt2 with
      | none => simp
      | some x => simp at hlk2

/-- Witness for C7: concrete stored state `"s1"`, consumed by a first
callback (with a successful upstream exchange), making a second callback
with the same state fail with 400 `invalid_request`. -/
theorem c7_state_single_use_witness :
    ((OAuthEndpoints.callback 0
        (⟨600, 300, [("s1", ⟨"ch", "S256", "https://c/cb", "sc", 0⟩)], []⟩ :
          OAuthSessionStore)
        ⟨some "azcode", some "s1", none, none⟩ (.ok "tok") "p1").2.states.lookup
      "s1" = none) ∧
    (OAuthEndpoints.callback 1
        (OAuthEndpoints.callback 0
          (⟨600, 300, [("s1", ⟨"ch", "S256", "https://c/cb", "sc", 0⟩)], []⟩ :
            OAuthSessionStore)
          ⟨some "azcode", some "s1", none, none⟩ (.ok "tok") "p1").2
        ⟨some "azcode2", some "s1", none, none⟩ (.ok "tok2") "p2").1 =
      .jsonError 400 "invalid_request" "Invalid or expired state parameter" :=
  c7_state_single_use 0 1 _ _ _ _ _ "p1" "p2" "s1" (by decide) (by decide)
    (by decide) (by decide) (by decide) (by decide) (by decide) (by decide)

/-- C9 counterexample: for the record with `email = "x"` and `token = "x"`,
the token string does occur inside the default textual form
(`UserContext(email=...)`), because the repr of the email field spells it
out — refuting the claim that the token string never appears in the
output. -/
theorem c9_counterexample :
    (⟨"x", "", "", "x"⟩ : UserContext).token.data <:+:
      ((⟨"x", "", "", "x"⟩ : UserContext).reprStr).data := by decide

/-- C9 (amended): the default textual form of a `UserContext` never reads
the `token` field — any two records agreeing on `email`, `tenant_id` and
`object_id` (so in particular two records differing only in `token`) have
identical reprs; the token value can therefore only surface when its text
already occurs in those three displayed fields. -/
theorem c9_repr_token_free (u1 u2 : UserContext)
    (he : u1.email = u2.email) (ht : u1.tenant_id = u2.tenant_id)
    (ho : u1.object_id = u2.object_id) :
    u1.reprStr = u2.reprStr := by
  unfold UserContext.reprStr
  rw [he, ht, ho]

/-- Witness for C9: two records differing only in their token have the
same repr. -/
theorem c9_repr_token_free_witness :
    (⟨"a@b.c", "t1", "o1", "secret-token-1"⟩ : UserContext).reprStr =
      (⟨"a@b.c", "t1", "o1", "another-token"⟩ : UserContext).reprStr :=
  c9_repr_token_free _ _ rfl rfl rfl

/-- C3 counterexample: in remote mode, `SSEBearerAuth.auth_flow` does not
retry on 401 — given responses 401 then 200, it issues exactly one
attempt and ends with the 401, refuting the claim that both modes retry
once and return the 200 result. -/
theorem c3_counterexample :
    (sseAuthFlow (some ⟨"e", "t", "o", "tok"⟩) ⟨[]⟩
        (fun i => if i = 0 then ⟨401⟩ else ⟨200⟩)).1.length = 1 ∧
    (sseAuthFlow (some ⟨"e", "t", "o", "tok"⟩) ⟨[]⟩
        (fun i => if i = 0 then ⟨401⟩ else ⟨200⟩)).2.status = 401 := by
  exact ⟨rfl, rfl⟩

/-- C3 (amended): only the local-mode authenticator (`MSALBearerAuth`)
retries on 401: after a first 401 it obtains a token once more and
resends exactly once, issuing two attempts and ending with the second
response (a 200 on successful retry, the second 401 otherwise, never a
third attempt); for any non-401 first response it issues one attempt and
ends with it.  The remote-mode authenticator (`SSEBearerAuth`) always
issues exactly one attempt and ends with the first response. -/
theorem c3_retry_once (getToken : Nat → String) (req : HttpRequest)
    (respond : Nat → HttpResponse) (ctx : Option UserContext) :
    ((respond 0).status = 401 →
      (msalAuthFlow getToken req respond).1.length = 2 ∧
      (msalAuthFlow getToken req respond).2 = respond 1) ∧
    ((respond 0).status ≠ 401 →
      (msalAuthFlow getToken req respond).1.length = 1 ∧
      (msalAuthFlow getToken req respond).2 = respond 0) ∧
    ((sseAuthFlow ctx req respond).1.length = 1 ∧
      (sseAuthFlow ctx req respond).2 = respond 0) := by
  refine ⟨fun h401 => ?_, fun hno => ?_, ?_⟩
  · unfold msalAuthFlow
    rw [if_pos h401]
    exact ⟨rfl, rfl⟩
  · unfold msalAuthFlow
    rw [if_neg hno]
    exact ⟨rfl, rfl⟩
  · unfold sseAuthFlow
    cases ctx <;> exact ⟨rfl, rfl⟩

/-- Witness for C3 (amended): with concrete responses 401 then 200 the
local authenticator issues two attempts and ends with the 200; with a
first response 200 it issues one attempt. -/
theorem c3_retry_once_witness :
    ((msalAuthFlow (fun _ => "tok") ⟨[]⟩
        (fun i => if i = 0 then ⟨401⟩ else ⟨200⟩)).1.length = 2 ∧
      (msalAuthFlow (fun _ => "tok") ⟨[]⟩
        (fun i => if i = 0 then ⟨401⟩ else ⟨200⟩)).2 = ⟨200⟩) ∧
    ((msalAuthFlow (fun _ => "tok") ⟨[]⟩ (fun _ => ⟨200⟩)).1.length = 1 ∧
      (msalAuthFlow (fun _ => "tok") ⟨[]⟩ (fun _ => ⟨200⟩)).2 = ⟨200⟩) :=
  ⟨(c3_retry_once (fun _ => "tok") ⟨[]⟩
      (fun i => if i = 0 then ⟨401⟩ else ⟨200⟩) none).1 (by decide),
   (c3_retry_once (fun _ => "tok") ⟨[]⟩ (fun _ => ⟨200⟩) none).2.1
      (by decide)⟩

/-- C4 counterexample: the error raised for an expired token and the error
raised for a wrong-audience token are instances of the same single class
`TokenValidationError`; in particular no distinct `TokenExpiredError`
class is raised, refuting the claim that each failure mode raises its own
distinct named error class. -/
theorem c4_counterexample :
    errClass (validateToken .expiredSignature "x") = "TokenValidationError" ∧
    errClass (validateToken .invalidAudience "x") = "TokenValidationError" ∧
    "TokenValidationError" ≠ "TokenExpiredError" := by
  exact ⟨rfl, rfl, by decide⟩

/-- C4 (amended): every distinct validation failure mode (expired, wrong
audience, wrong issuer, invalid signature, malformed) raises the single
class `TokenValidationError`, with a distinct message per failure mode,
and each of these failures produces a 401 response with that message at
the inbound auth middleware. -/
theorem c4_distinct_messages_401 (t : String) :
    validateToken .expiredSignature t =
      .error ⟨"TokenValidationError",
        "Token expired. Please refresh your authentication."⟩ ∧
    validateToken .invalidAudience t =
      .error ⟨"TokenValidationError",
        "Token not valid for this service. Invalid audience."⟩ ∧
    validateToken .invalidIssuer t =
      .error ⟨"TokenValidationError",
        "Token not valid for this service. Invalid issuer."⟩ ∧
    validateToken .invalidSignature t =
      .error ⟨"TokenValidationError", "Invalid token signature."⟩ ∧
    validateToken .decodeError t =
      .error ⟨"TokenValidationError",
        "Invalid token format. Expected JWT Bearer token."⟩ ∧
    List.Pairwise (· ≠ ·)
      ["Token expired. Please refresh your authentication.",
       "Token not valid for this service. Invalid audience.",
       "Token not valid for this service. Invalid issuer.",
       "Invalid token signature.",
       "Invalid token format. Expected JWT Bearer token."] ∧
    (∀ o : JwtOutcome,
      o = .expiredSignature ∨ o = .invalidAudience ∨ o = .invalidIssuer ∨
        o = .invalidSignature ∨ o = .decodeError →
      sseAuthMiddleware true "/messages" [("authorization", "Bearer x")]
          (validateToken o) =
        .respond 401 (errMessage (validateToken o "x"))) := by
  refine ⟨rfl, rfl, rfl, rfl, rfl, by decide, ?_⟩
  intro o ho
  rcases ho with h | h | h | h | h <;> subst h <;> decide

/-- Witness for C4 (amended): the expired-token failure concretely yields
the 401 middleware response carrying the expired-token message. -/
theorem c4_distinct_messages_401_witness :
    sseAuthMiddleware true "/messages" [("authorization", "Bearer x")]
        (validateToken .expiredSignature) =
      .respond 401 (errMessage (validateToken .expiredSignature "x")) :=
  (c4_distinct_messages_401 "x").2.2.2.2.2.2 .expiredSignature (Or.inl rfl)

/-- C5: when the JWKS cache TTL has lapsed and the fetch fails, the
previously cached key set is served (and the cache timestamp refreshed)
when a cached set exists; when no cached set exists the lookup fails with
the `TokenValidationError("Unable to fetch JWKS: ...")` key-set-unavailable
error. -/
theorem c5_jwks_fail_open (st : JwksCache) (now : Int) (e : String)
    (hlapsed : st.jwks_cache_ttl ≤ now - st.jwks_cache_time) :
    (∀ c : Jwks, st.jwks_cache = some c → c ≠ [] →
      getJwks st now (.error e) =
        .ok (c, { st with jwks_cache_time := now })) ∧
    (st.jwks_cache = none →
      getJwks st now (.error e) =
        .error ⟨"TokenValidationError", "Unable to fetch JWKS: " ++ e⟩) := by
  constructor
  · intro c hc hne
    have htr : jwksTruthy st.jwks_cache = true := by
      rw [hc]
      simpa [jwksTruthy] using hne
    unfold getJwks fetchJwks
    rw [if_neg (fun hcon => absurd hcon.2 (not_lt.mpr hlapsed))]
    dsimp only
    rw [if_pos htr, hc]
    rfl
  · intro hc
    have htr : jwksTruthy st.jwks_cache = false := by
      rw [hc]; rfl
    unfold getJwks fetchJwks
    rw [if_neg (by simp [htr] : ¬ (jwksTruthy st.jwks_cache = true ∧
      now - st.jwks_cache_time < st.jwks_cache_ttl))]
    dsimp only
    rw [if_neg (by simp [htr])]

/-- Witness for C5: a concrete lapsed cache holding a key document is
served stale on fetch failure; a concrete empty cache fails with the
key-set-unavailable error. -/
theorem c5_jwks_fail_open_witness :
    (getJwks ⟨3600, some [("keys", "[...]")], 0⟩ 3600 (.error "timeout") =
      .ok ([("keys", "[...]")], ⟨3600, some [("keys", "[...]")], 3600⟩)) ∧
    (getJwks ⟨3600, none, 0⟩ 3600 (.error "timeout") =
      .error ⟨"TokenValidationError", "Unable to fetch JWKS: timeout"⟩) :=
  ⟨(c5_jwks_fail_open ⟨3600, some [("keys", "[...]")], 0⟩ 3600 "timeout"
      (by decide)).1 [("keys", "[...]")] rfl (by decide),
   (c5_jwks_fail_open ⟨3600, none, 0⟩ 3600 "timeout" (by decide)).2 rfl⟩

/-- C8: for a GET `/authorize` request, (a) when any of the five required
parameters is missing (absent or empty, per the handler's truthiness
test) the answer is 400 `invalid_request`; (b) when all are present but
`client_id` differs from the configured identifier the answer is 400
`invalid_client`; (c) otherwise the state is stored (retrievable from the
resulting store under the client's `state` key) and a 302 redirect is
returned whose URL carries the proxy's own callback URL as
`redirect_uri`, the configured API scope as `scope`, and the client's
original `state` unchanged. -/
theorem c8_authorize (cfg : HebloMCPConfig) (cb : String) (now : Int)
    (s : OAuthSessionStore) (q : OAuthEndpoints.AuthorizeQuery) :
    (¬ (truthy q.client_id ∧ truthy q.redirect_uri ∧ truthy q.state ∧
        truthy q.code_challenge ∧ truthy q.code_challenge_method) →
      OAuthEndpoints.authorize cfg cb now s q =
        (.jsonError 400 "invalid_request" "Missing required OAuth parameters",
         s)) ∧
    ((truthy q.client_id ∧ truthy q.redirect_uri ∧ truthy q.state ∧
        truthy q.code_challenge ∧ truthy q.code_challenge_method) →
      q.client_id ≠ some cfg.client_id →
      OAuthEndpoints.authorize cfg cb now s q =
        (.jsonError 400 "invalid_client"
          ("Unknown client_id. Expected: " ++ cfg.client_id), s)) ∧
    ((truthy q.client_id ∧ truthy q.redirect_uri ∧ truthy q.state ∧
        truthy q.code_challenge ∧ truthy q.code_challenge_method) →
      q.client_id = some cfg.client_id →
      ∀ stv : String, q.state = some stv →
      OAuthEndpoints.authorize cfg cb now s q =
        (.redirect 302 (azureAuthorizeUrl cfg.tenant_id ++ "?" ++
          urlencode [("client_id", cfg.client_id), ("response_type", "code"),
                     ("redirect_uri", cb), ("scope", cfg.api_scope),
                     ("state", stv), ("response_mode", "query")]),
         s.storeState now stv (q.code_challenge.getD "")
           (q.code_challenge_method.getD "") (q.redirect_uri.getD "")
           (q.scope.getD "claudeai")) ∧
      (OAuthEndpoints.authorize cfg cb now s q).2.states.lookup stv =
        some ⟨q.code_challenge.getD "", q.code_challenge_method.getD "",
              q.redirect_uri.getD "", q.scope.getD "claudeai", now⟩) := by
  refine ⟨fun hmiss => ?_, fun hall hne => ?_, fun hall heq stv hstv => ?_⟩
  · unfold OAuthEndpoints.authorize
    dsimp only
    rw [if_pos hmiss]
  · unfold OAuthEndpoints.authorize
    dsimp only
    rw [if_neg (not_not_intro hall), if_pos hne]
  · have hmain : OAuthEndpoints.authorize cfg cb now s q =
        (.redirect 302 (azureAuthorizeUrl cfg.tenant_id ++ "?" ++
          urlencode [("client_id", cfg.client_id), ("response_type", "code"),
                     ("redirect_uri", cb), ("scope", cfg.api_scope),
                     ("state", stv), ("response_mode", "query")]),
         s.storeState now stv (q.code_challenge.getD "")
           (q.code_challenge_method.getD "") (q.redirect_uri.getD "")
           (q.scope.getD "claudeai")) := by
      unfold OAuthEndpoints.authorize
      dsimp only
      rw [if_neg (not_not_intro hall), if_neg (not_not_intro heq), hstv]
      rfl
    refine ⟨hmain, ?_⟩
    rw [hmain]
    unfold OAuthSessionStore.storeState OAuthSessionStore.cleanupExpiredStates
    dsimp only
    simp [List.lookup]

/-- Witness for C8 exercising all three arms on concrete requests: a
missing `state` gives `invalid_request`; a wrong `client_id` gives
`invalid_client`; a complete request stores the state and redirects with
the proxy callback URL, configured scope and original state. -/
theorem c8_authorize_witness :
    (OAuthEndpoints.authorize ⟨"tenant1", "X", "api-scope"⟩
        "https://proxy/callback" 0 (mkStore)
        ⟨some "X", some "https://c/cb", none, some "abc", some "S256", none⟩ =
      (.jsonError 400 "invalid_request" "Missing required OAuth parameters",
       mkStore)) ∧
    (OAuthEndpoints.authorize ⟨"tenant1", "X", "api-scope"⟩
        "https://proxy/callback" 0 (mkStore)
        ⟨some "Y", some "https://c/cb", some "s1", some "abc", some "S256",
         none⟩ =
      (.jsonError 400 "invalid_client" ("Unknown client_id. Expected: X"),
       mkStore)) ∧
    (OAuthEndpoints.authorize ⟨"tenant1", "X", "api-scope"⟩
        "https://proxy/callback" 0 (mkStore)
        ⟨some "X", some "https://c/cb", some "s1", some "abc", some "S256",
         none⟩ =
      (.redirect 302 (azureAuthorizeUrl "tenant1" ++ "?" ++
        urlencode [("client_id", "X"), ("response_type", "code"),
                   ("redirect_uri", "https://proxy/callback"),
                   ("scope", "api-scope"), ("state", "s1"),
                   ("response_mode", "query")]),
       (mkStore).storeState 0 "s1" "abc" "S256" "https://c/cb" "claudeai")) := by
  refine ⟨?_, ?_, ?_⟩
  · exact (c8_authorize ⟨"tenant1", "X", "api-scope"⟩ "https://proxy/callback"
      0 (mkStore) _).1 (by decide)
  · exact (c8_authorize ⟨"tenant1", "X", "api-scope"⟩ "https://proxy/callback"
      0 (mkStore) _).2.1 (by decide) (by decide)
  · exact ((c8_authorize ⟨"tenant1", "X", "api-scope"⟩ "https://proxy/callback"
      0 (mkStore) _).2.2 (by decide) rfl "s1" rfl).1

/-! #### Shared lemmas about `/token` and `exchange_code` -/

lemma token_exchange_eq (cfg : HebloMCPConfig) (now : Int)
    (s : OAuthSessionStore) (c v : String) (hc : c ≠ "") (hv : v ≠ "")
    (hcfg : cfg.client_id ≠ "") :
    OAuthEndpoints.token cfg now s
        ⟨some "authorization_code", some c, some v, some cfg.client_id⟩ =
      match s.exchangeCode now c v with
      | (some t, s1) =>
          if t.isEmpty then (OAuthEndpoints.invalidGrantResponse, s1)
          else (.tokenSuccess 200 t "Bearer" 3600, s1)
      | (none, s1) => (OAuthEndpoints.invalidGrantResponse, s1) := by
  have htc : truthy (some c) = true := by
    simp [truthy, isEmpty_false_of_ne c hc]
  have htv : truthy (some v) = true := by
    simp [truthy, isEmpty_false_of_ne v hv]
  have htg : truthy (some cfg.client_id) = true := by
    simp [truthy, isEmpty_false_of_ne cfg.client_id hcfg]
  unfold OAuthEndpoints.token
  dsimp only
  rw [if_neg (not_not_intro rfl),
    if_neg (not_not_intro ⟨htc, htv, htg⟩),
    if_neg (not_not_intro rfl)]
  simp only [Option.getD_some]

lemma exchangeCode_found (s : OAuthSessionStore) (now : Int) (c v : String)
    (pc : ProxyCode) (hlk : s.codes.lookup c = some pc)
    (hfresh : now - pc.created_at ≤ s.code_ttl) :
    s.exchangeCode now c v =
      (if computeChallenge v = pc.code_challenge then some pc.access_token
       else none,
       { s with codes :=
          ((s.codes.filter (fun p =>
            decide (now - p.2.created_at ≤ s.code_ttl))).filter
              (fun p => p.1 ≠ c)) }) := by
  have hpred : (fun p : String × ProxyCode =>
      decide (now - p.2.created_at ≤ s.code_ttl)) (c, pc) = true := by
    dsimp only
    exact decide_eq_true hfresh
  have hlk2 := lookup_filter_keep (fun p : String × ProxyCode =>
    decide (now - p.2.created_at ≤ s.code_ttl)) c pc s.codes hlk hpred
  unfold OAuthSessionStore.exchangeCode OAuthSessionStore.cleanupExpiredCodes
  dsimp only
  rw [hlk2]
  dsimp only
  by_cases h : computeChallenge v = pc.code_challenge
  · rw [if_pos h, if_pos h]
  · rw [if_neg h, if_neg h]

lemma exchangeCode_removes (s : OAuthSessionStore) (now : Int)
    (c v : String) : ((s.exchangeCode now c v).2).codes.lookup c = none := by
  have hgoal : ∀ l : List (String × ProxyCode),
      (l.filter fun p => decide (p.1 ≠ c)).lookup c = none := by
    intro l
    apply lookup_filter_pred_false
    intro w
    simp
  unfold OAuthSessionStore.exchangeCode OAuthSessionStore.cleanupExpiredCodes
  dsimp only
  cases hm : ((s.codes.filter fun p =>
      decide (now - p.2.created_at ≤ s.code_ttl)).lookup c) with
  | none => exact hgoal _
  | some pc =>
      dsimp only
      by_cases h : computeChallenge v = pc.code_challenge
      · rw [if_pos h]; exact hgoal _
      · rw [if_neg h]; exact hgoal _

lemma exchangeCode_notfound (s : OAuthSessionStore) (now : Int)
    (c v : String) (hlk : s.codes.lookup c = none) :
    (s.exchangeCode now c v).1 = none := by
  have hnone : (s.codes.filter fun p =>
      decide (now - p.2.created_at ≤ s.code_ttl)).lookup c = none :=
    lookup_filter_none _ _ _ hlk
  unfold OAuthSessionStore.exchangeCode OAuthSessionStore.cleanupExpiredCodes
  dsimp only
  rw [hnone]

lemma exchangeCode_preserves_absent (s : OAuthSessionStore) (now : Int)
    (c2 v2 c : String) (h : s.codes.lookup c = none) :
    ((s.exchangeCode now c2 v2).2).codes.lookup c = none := by
  have habs : ∀ l : List (String × ProxyCode), l.lookup c = none →
      (l.filter fun p => decide (p.1 ≠ c2)).lookup c = none := fun l hl =>
    lookup_filter_none _ _ _ hl
  have hcl : (s.codes.filter fun p =>
      decide (now - p.2.created_at ≤ s.code_ttl)).lookup c = none :=
    lookup_filter_none _ _ _ h
  unfold OAuthSessionStore.exchangeCode OAuthSessionStore.cleanupExpiredCodes
  dsimp only
  cases hm : ((s.codes.filter fun p =>
      decide (now - p.2.created_at ≤ s.code_ttl)).lookup c2) with
  | none => exact habs _ hcl
  | some pc =>
      dsimp only
      by_cases hch : computeChallenge v2 = pc.code_challenge
      · rw [if_pos hch]; exact habs _ hcl
      · rw [if_neg hch]; exact habs _ hcl

lemma token_preserves_absent (cfg : HebloMCPConfig) (now : Int)
    (s : OAuthSessionStore) (r : OAuthEndpoints.TokenRequest) (c : String)
    (h : s.codes.lookup c = none) :
    ((OAuthEndpoints.token cfg now s r).2).codes.lookup c = none := by
  have hp := exchangeCode_preserves_absent s now (r.code.getD "")
    (r.code_verifier.getD "") c h
  unfold OAuthEndpoints.token
  split
  · exact h
  · split
    · exact h
    · split
      · exact h
      · cases hex : s.exchangeCode now (r.code.getD "")
            (r.code_verifier.getD "") with
        | mk opt s1 =>
            rw [hex] at hp
            cases opt with
            | none => exact hp
            | some t =>
                dsimp only
                by_cases ht : t.isEmpty = true
                · rw [if_pos ht]; exact hp
                · rw [if_neg ht]; exact hp

lemma token_unknown_code (cfg : HebloMCPConfig) (now : Int)
    (s : OAuthSessionStore) (c v : String) (hc : c ≠ "") (hv : v ≠ "")
    (hcfg : cfg.client_id ≠ "") (hlk : s.codes.lookup c = none) :
    (OAuthEndpoints.token cfg now s
      ⟨some "authorization_code", some c, some v, some cfg.client_id⟩).1 =
      OAuthEndpoints.invalidGrantResponse := by
  rw [token_exchange_eq cfg now s c v hc hv hcfg]
  have h1 := exchangeCode_notfound s now c v hlk
  cases hex : s.exchangeCode now c v with
  | mk opt s1 =>
      rw [hex] at h1
      cases opt with
      | none => rfl
      | some t => simp at h1

/-- C1 counterexample, in two concrete parts.  (i) A proxy code stored with
an empty upstream access token: the verifier `"v"` matches the stored
challenge (it literally is `computeChallenge "v"`), yet `/token` answers
400 `invalid_grant` because `if not access_token:` treats the empty token
as a failure — the claim demands 200 with the stored token.  (ii) An
empty `code_verifier` against a non-matching stored challenge: the claim
demands 400 `invalid_grant` for every non-matching verifier, but the
handler answers 400 `invalid_request` (parameter truthiness) instead. -/
theorem c1_counterexample :
    ((OAuthEndpoints.token ⟨"t", "X", "sc"⟩ 0
        ⟨600, 300, [], [("c1", ⟨"", computeChallenge "v", 0⟩)]⟩
        ⟨some "authorization_code", some "c1", some "v", some "X"⟩).1 =
      OAuthEndpoints.invalidGrantResponse) ∧
    ((OAuthEndpoints.token ⟨"t", "X", "sc"⟩ 0
        ⟨600, 300, [], [("c1", ⟨"tok", "other-challenge", 0⟩)]⟩
        ⟨some "authorization_code", some "c1", some "", some "X"⟩).1 =
      .jsonError 400 "invalid_request" "Missing required parameters") ∧
    computeChallenge "" ≠ "other-challenge" := by
  exact ⟨by decide, rfl, by decide⟩

/-- C1 (amended): for a proxy code stored with challenge `ch` and a fresh
(non-expired) entry, a `/token` POST with grant type `authorization_code`,
matching non-empty `client_id`, the stored non-empty code and a non-empty
verifier answers 200 with the stored access token when
base64url-no-padding(SHA-256(verifier)) equals `ch` — provided the stored
access token is non-empty — and answers the 400 `invalid_grant` response
when the recomputed challenge differs, identical to the response for any
unknown code. -/
theorem c1_token_pkce_iff (cfg : HebloMCPConfig) (now : Int)
    (s : OAuthSessionStore) (c v : String) (pc : ProxyCode)
    (hlk : s.codes.lookup c = some pc)
    (hfresh : now - pc.created_at ≤ s.code_ttl)
    (hc : c ≠ "") (hv : v ≠ "") (hcfg : cfg.client_id ≠ "")
    (htok : pc.access_token ≠ "") :
    (computeChallenge v = pc.code_challenge →
      (OAuthEndpoints.token cfg now s
        ⟨some "authorization_code", some c, some v, some cfg.client_id⟩).1 =
        .tokenSuccess 200 pc.access_token "Bearer" 3600) ∧
    (computeChallenge v ≠ pc.code_challenge →
      (OAuthEndpoints.token cfg now s
        ⟨some "authorization_code", some c, some v, some cfg.client_id⟩).1 =
        OAuthEndpoints.invalidGrantResponse) ∧
    (∀ c2 : String, c2 ≠ "" → s.codes.lookup c2 = none →
      (OAuthEndpoints.token cfg now s
        ⟨some "authorization_code", some c2, some v, some cfg.client_id⟩).1 =
        OAuthEndpoints.invalidGrantResponse) := by
  refine ⟨fun hmatch => ?_, fun hmis => ?_, fun c2 hc2 hlk2 => ?_⟩
  · rw [token_exchange_eq cfg now s c v hc hv hcfg,
      exchangeCode_found s now c v pc hlk hfresh, if_pos hmatch]
    dsimp only
    rw [if_neg (by simp [isEmpty_false_of_ne pc.access_token htok])]
  · rw [token_exchange_eq cfg now s c v hc hv hcfg,
      exchangeCode_found s now c v pc hlk hfresh, if_neg hmis]
  · rw [token_exchange_eq cfg now s c2 v hc2 hv hcfg]
    have h1 := exchangeCode_notfound s now c2 v hlk2
    cases hex : s.exchangeCode now c2 v with
    | mk opt s1 =>
        rw [hex] at h1
        cases opt with
        | none => rfl
        | some t => simp at h1

/-- Witness for C1 at a concrete store holding the challenge of verifier
`"w"`: the matching verifier wins the stored token, the verifier `"v"`
gets `invalid_grant`, and an unknown code gets the identical
`invalid_grant`. -/
theorem c1_token_pkce_iff_witness :
    ((OAuthEndpoints.token ⟨"t", "X", "sc"⟩ 0
        ⟨600, 300, [], [("c1", ⟨"tok", computeChallenge "w", 0⟩)]⟩
        ⟨some "authorization_code", some "c1", some "w", some "X"⟩).1 =
      .tokenSuccess 200 "tok" "Bearer" 3600) ∧
    ((OAuthEndpoints.token ⟨"t", "X", "sc"⟩ 0
        ⟨600, 300, [], [("c1", ⟨"tok", computeChallenge "w", 0⟩)]⟩
        ⟨some "authorization_code", some "c1", some "v", some "X"⟩).1 =
      OAuthEndpoints.invalidGrantResponse) ∧
    ((OAuthEndpoints.token ⟨"t", "X", "sc"⟩ 0
        ⟨600, 300, [], [("c1", ⟨"tok", computeChallenge "w", 0⟩)]⟩
        ⟨some "authorization_code", some "zz", some "w", some "X"⟩).1 =
      OAuthEndpoints.invalidGrantResponse) :=
  ⟨(c1_token_pkce_iff ⟨"t", "X", "sc"⟩ 0
      ⟨600, 300, [], [("c1", ⟨"tok", computeChallenge "w", 0⟩)]⟩ "c1" "w"
      ⟨"tok", computeChallenge "w", 0⟩
      rfl (by decide) (by decide) (by decide) (by decide) (by decide)).1 rfl,
   (c1_token_pkce_iff ⟨"t", "X", "sc"⟩ 0
      ⟨600, 300, [], [("c1", ⟨"tok", computeChallenge "w", 0⟩)]⟩ "c1" "v"
      ⟨"tok", computeChallenge "w", 0⟩
      rfl (by decide) (by decide) (by decide) (by decide) (by decide)).2.1
      (by decide),
   (c1_token_pkce_iff ⟨"t", "X", "sc"⟩ 0
      ⟨600, 300, [], [("c1", ⟨"tok", computeChallenge "w", 0⟩)]⟩ "c1" "w"
      ⟨"tok", computeChallenge "w", 0⟩
      rfl (by decide) (by decide) (by decide) (by decide) (by decide)).2.2
      "zz" (by decide) rfl⟩

/-- C2: after one successful `/token` redemption of a proxy code, the code
is absent from the resulting store and permanently so: no later `/token`
request of any shape (any configuration, grant type, client id, verifier
or time) ever re-adds an absent code to the store, and every later
redemption attempt with that code — any verifier, including the correct
one, with the matching `client_id` and grant type — answers the 400
`invalid_grant` response. -/
theorem c2_code_single_use (cfg : HebloMCPConfig) (now : Int)
    (s : OAuthSessionStore) (c v atok : String)
    (hc : c ≠ "") (hv : v ≠ "") (hcfg : cfg.client_id ≠ "")
    (hsucc : (OAuthEndpoints.token cfg now s
        ⟨some "authorization_code", some c, some v, some cfg.client_id⟩).1 =
      .tokenSuccess 200 atok "Bearer" 3600) :
    ((OAuthEndpoints.token cfg now s
        ⟨some "authorization_code", some c, some v,
         some cfg.client_id⟩).2.codes.lookup c = none) ∧
    (∀ (s2 : OAuthSessionStore) (cfg2 : HebloMCPConfig) (now2 : Int)
       (r2 : OAuthEndpoints.TokenRequest), s2.codes.lookup c = none →
      ((OAuthEndpoints.token cfg2 now2 s2 r2).2).codes.lookup c = none) ∧
    (∀ (s2 : OAuthSessionStore), s2.codes.lookup c = none →
      ∀ (now2 : Int) (v2 : String), v2 ≠ "" →
      (OAuthEndpoints.token cfg now2 s2
        ⟨some "authorization_code", some c, some v2, some cfg.client_id⟩).1 =
      OAuthEndpoints.invalidGrantResponse) := by
  refine ⟨?_,
    fun s2 cfg2 now2 r2 h => token_preserves_absent cfg2 now2 s2 r2 c h,
    fun s2 h now2 v2 hv2 =>
      token_unknown_code cfg now2 s2 c v2 hc hv2 hcfg h⟩
  have heq := token_exchange_eq cfg now s c v hc hv hcfg
  rw [heq] at hsucc
  have hrm := exchangeCode_removes s now c v
  cases hex : s.exchangeCode now c v with
  | mk opt s1 =>
      rw [hex] at hsucc hrm
      cases opt with
      | none => simp [OAuthEndpoints.invalidGrantResponse] at hsucc
      | some t =>
          have h2 : (OAuthEndpoints.token cfg now s
              ⟨some "authorization_code", some c, some v,
               some cfg.client_id⟩).2 = s1 := by
            rw [heq, hex]
            dsimp only
            by_cases ht : t.isEmpty = true
            · rw [if_pos ht]
            · rw [if_neg ht]
          rw [h2]
          exact hrm

/-- Witness for C2: the code `"c1"` redeemed successfully with verifier
`"w"` is gone from the store; a later redemption attempt on a different
code does not resurrect it; and the replay with the same code and the
same correct verifier answers `invalid_grant`. -/
theorem c2_code_single_use_witness :
    ((OAuthEndpoints.token ⟨"t", "X", "sc"⟩ 0
        ⟨600, 300, [], [("c1", ⟨"tok", computeChallenge "w", 0⟩)]⟩
        ⟨some "authorization_code", some "c1", some "w",
         some "X"⟩).2.codes.lookup "c1" = none) ∧
    ((OAuthEndpoints.token ⟨"t", "X", "sc"⟩ 2
        (OAuthEndpoints.token ⟨"t", "X", "sc"⟩ 0
          ⟨600, 300, [], [("c1", ⟨"tok", computeChallenge "w", 0⟩)]⟩
          ⟨some "authorization_code", some "c1", some "w", some "X"⟩).2
        ⟨some "authorization_code", some "c2", some "w",
         some "X"⟩).2.codes.lookup "c1" = none) ∧
    ((OAuthEndpoints.token ⟨"t", "X", "sc"⟩ 1
        (OAuthEndpoints.token ⟨"t", "X", "sc"⟩ 0
          ⟨600, 300, [], [("c1", ⟨"tok", computeChallenge "w", 0⟩)]⟩
          ⟨some "authorization_code", some "c1", some "w", some "X"⟩).2
        ⟨some "authorization_code", some "c1", some "w", some "X"⟩).1 =
      OAuthEndpoints.invalidGrantResponse) := by
  have h := c2_code_single_use ⟨"t", "X", "sc"⟩ 0
    ⟨600, 300, [], [("c1", ⟨"tok", computeChallenge "w", 0⟩)]⟩ "c1" "w" "tok"
    (by decide) (by decide) (by decide) (by decide)
  exact ⟨h.1, h.2.1 _ ⟨"t", "X", "sc"⟩ 2
      ⟨some "authorization_code", some "c2", some "w", some "X"⟩ h.1,
    h.2.2 _ h.1 1 "w" (by decide)⟩

/-- C10: a `/token` redemption attempt with a non-matching verifier on a
live proxy code answers 400 `invalid_grant` and removes the code from the
store (the pop happens before PKCE verification), so every later attempt
with that same code — including with the correct verifier — also answers
400 `invalid_grant`. -/
theorem c10_failed_attempt_consumes (cfg : HebloMCPConfig) (now : Int)
    (s : OAuthSessionStore) (c v : String) (pc : ProxyCode)
    (hlk : s.codes.lookup c = some pc)
    (hfresh : now - pc.created_at ≤ s.code_ttl)
    (hc : c ≠ "") (hv : v ≠ "") (hcfg : cfg.client_id ≠ "")
    (hmis : computeChallenge v ≠ pc.code_challenge) :
    ((OAuthEndpoints.token cfg now s
        ⟨some "authorization_code", some c, some v, some cfg.client_id⟩).1 =
      OAuthEndpoints.invalidGrantResponse) ∧
    ((OAuthEndpoints.token cfg now s
        ⟨some "authorization_code", some c, some v,
         some cfg.client_id⟩).2.codes.lookup c = none) ∧
    (∀ (now2 : Int) (v2 : String), v2 ≠ "" →
      (OAuthEndpoints.token cfg now2
        (OAuthEndpoints.token cfg now s
          ⟨some "authorization_code", some c, some v, some cfg.client_id⟩).2
        ⟨some "authorization_code", some c, some v2, some cfg.client_id⟩).1 =
      OAuthEndpoints.invalidGrantResponse) := by
  have heq := token_exchange_eq cfg now s c v hc hv hcfg
  have hrm := exchangeCode_removes s now c v
  have hfound := exchangeCode_found s now c v pc hlk hfresh
  rw [if_neg hmis] at hfound
  cases hex : s.exchangeCode now c v with
  | mk opt s1 =>
      rw [hex] at hrm hfound
      injection hfound with hopt hs1
      subst hopt
      have hrm2 : s1.codes.lookup c = none := hrm
      have h2 : (OAuthEndpoints.token cfg now s
          ⟨some "authorization_code", some c, some v,
           some cfg.client_id⟩) = (OAuthEndpoints.invalidGrantResponse, s1) := by
        rw [heq, hex]
      refine ⟨by rw [h2], by rw [h2]; exact hrm2, ?_⟩
      intro now2 v2 hv2
      rw [h2]
      exact token_unknown_code cfg now2 s1 c v2 hc hv2 hcfg hrm2

/-- Witness for C10: the code `"c1"` (stored with the challenge of `"w"`)
attacked once with the wrong verifier `"v"` yields `invalid_grant` and
disappears; the retry with the correct verifier `"w"` also yields
`invalid_grant`. -/
theorem c10_failed_attempt_consumes_witness :
    ((OAuthEndpoints.token ⟨"t", "X", "sc"⟩ 0
        ⟨600, 300, [], [("c1", ⟨"tok", computeChallenge "w", 0⟩)]⟩
        ⟨some "authorization_code", some "c1", some "v", some "X"⟩).1 =
      OAuthEndpoints.invalidGrantResponse) ∧
    ((OAuthEndpoints.token ⟨"t", "X", "sc"⟩ 0
        ⟨600, 300, [], [("c1", ⟨"tok", computeChallenge "w", 0⟩)]⟩
        ⟨some "authorization_code", some "c1", some "v",
         some "X"⟩).2.codes.lookup "c1" = none) ∧
    ((OAuthEndpoints.token ⟨"t", "X", "sc"⟩ 1
        (OAuthEndpoints.token ⟨"t", "X", "sc"⟩ 0
          ⟨600, 300, [], [("c1", ⟨"tok", computeChallenge "w", 0⟩)]⟩
          ⟨some "authorization_code", some "c1", some "v", some "X"⟩).2
        ⟨some "authorization_code", some "c1", some "w", some "X"⟩).1 =
      OAuthEndpoints.invalidGrantResponse) := by
  have h := c10_failed_attempt_consumes ⟨"t", "X", "sc"⟩ 0
    ⟨600, 300, [], [("c1", ⟨"tok", computeChallenge "w", 0⟩)]⟩ "c1" "v"
    ⟨"tok", computeChallenge "w", 0⟩ rfl (by decide) (by decide) (by decide)
    (by decide) (by decide)
  exact ⟨h.1, h.2.1, h.2.2 1 "w" (by decide)⟩

end HebloMCP
